import Mathlib

/-!
Verification development for the gameplay-simulation layer of StationIapetus
(src/bot/mod.rs, src/player/mod.rs, src/level.rs).

The Rust code is shallowly embedded: positions and times are exact rationals
(`ℚ`), scene/physics/navmesh/animation facilities — which the spec lists as
external capabilities — are passed in as explicit data (lists of ray hits,
query functions, event queues).  Each definition mirrors one Rust item and is
named after it.
-/

namespace StationIapetus

/-- 3-component vector over `ℚ`, embedding `Vector3<f32>`. -/
structure Vec3 where
  x : ℚ
  y : ℚ
  z : ℚ
deriving DecidableEq, Repr

/-- Squared distance between two points, embedding `Vector3Ext::sqr_distance`. -/
def Vec3.sqrDistance (a b : Vec3) : ℚ :=
  (a.x - b.x) * (a.x - b.x) + (a.y - b.y) * (a.y - b.y) + (a.z - b.z) * (a.z - b.z)

/-- `BotKind` enum from src/bot/mod.rs. -/
inductive BotKind where
  | Mutant
  | Parasite
  | Zombie
deriving DecidableEq, Repr

/-- `BotKind::id` from src/bot/mod.rs. -/
def BotKind.id : BotKind → Int
  | .Mutant => 0
  | .Parasite => 1
  | .Zombie => 2

/-- `BotKind::from_id` from src/bot/mod.rs (`Err` embedded as `none`). -/
def BotKind.from_id (id : Int) : Option BotKind :=
  if id = 0 then some .Mutant
  else if id = 1 then some .Parasite
  else if id = 2 then some .Zombie
  else none

/-- `BotDefinition` from src/bot/mod.rs: the static per-kind tuning table.
Only fields with gameplay meaning for the verified claims are kept with their
exact source values; asset-path string fields are kept verbatim as well. -/
structure BotDefinition where
  scale : ℚ
  health : ℚ
  kind : BotKind
  walk_speed : ℚ
  weapon_scale : ℚ
  model : String
  v_aim_angle_hack : ℚ
  can_use_weapons : Bool
  attack_damage : ℚ
  attack_timestamp : ℚ
deriving DecidableEq, Repr

/-- `Bot::get_definition` from src/bot/mod.rs: the three static definition
tables, transcribed field for field (note the Zombie arm really does carry
`kind: BotKind::Parasite` in the source). -/
def Bot.get_definition : BotKind → BotDefinition
  | .Mutant =>
      { kind := .Mutant
        model := "data/models/mutant.FBX"
        walk_speed := 0.7
        scale := 0.0065
        weapon_scale := 1.0
        health := 1000.0
        v_aim_angle_hack := 0.0
        can_use_weapons := false
        attack_damage := 120.0
        attack_timestamp := 1.1 }
  | .Parasite =>
      { kind := .Parasite
        model := "data/models/parasite.FBX"
        walk_speed := 1.0
        scale := 0.0055
        weapon_scale := 1.0
        health := 300.0
        v_aim_angle_hack := 0.0
        can_use_weapons := false
        attack_damage := 40.0
        attack_timestamp := 1.1 }
  | .Zombie =>
      { kind := .Parasite
        model := "data/models/zombie.fbx"
        walk_speed := 1.2
        scale := 0.0055
        weapon_scale := 1.0
        health := 100.0
        v_aim_angle_hack := 12.0
        can_use_weapons := false
        attack_damage := 40.0
        attack_timestamp := 1.6 }

/-- `Target` from src/bot/mod.rs: cached world position plus the handle of the
targeted actor.  Handles are embedded as natural numbers. -/
structure Target where
  position : Vec3
  handle : Nat
deriving DecidableEq, Repr

/-- `TargetDescriptor` (crate::actor): the per-candidate data `select_target`
reads — handle, world position and current health. -/
structure TargetDescriptor where
  handle : Nat
  position : Vec3
  health : ℚ
deriving DecidableEq, Repr

/-- One ray-cast intersection as consumed by `select_target`: whether the hit
collider is a triangle mesh (`collider.shape().as_trimesh().is_some()`), and
the handle of the collider's parent rigid body. -/
structure Hit where
  isTrimesh : Bool
  body : Nat
deriving DecidableEq, Repr

/-- The sticky-target scan (first loop of `Bot::select_target`): the first
candidate that is not the bot itself, carries the current target's handle and
has positive health. -/
def stickyCandidate (selfHandle : Nat) (t : Target) :
    List TargetDescriptor → Option TargetDescriptor
  | [] => none
  | d :: rest =>
      if d.handle ≠ selfHandle ∧ d.handle = t.handle ∧ 0 < d.health then some d
      else stickyCandidate selfHandle t rest

/-- Occlusion test of the inner `hit_loop` of `Bot::select_target`: the
candidate is skipped as soon as any hit collider is a triangle mesh; a hit on
the bot's own body merely moves to the next hit, and so does any other
non-trimesh hit, so the loop's net effect is "some hit is a trimesh". -/
def hitLoopOccluded (hits : List Hit) : Bool :=
  hits.any (fun h => h.isTrimesh)

/-- The accumulator comparison `sqr_d < closest_distance` of
`Bot::select_target`.  The source initialises `closest_distance` to
`std::f32::MAX`, a sentinel no squared distance produced by the game reaches;
it is embedded as `none` (every candidate beats it). -/
def beatsClosest (sqrD : ℚ) : Option ℚ → Bool
  | none => true
  | some c => decide (sqrD < c)

/-- The nearest-candidate scan (`target_loop`) of `Bot::select_target`,
carrying the running `(self.target, closest_distance)` pair through the
candidate list in order. -/
def targetLoop (selfHandle : Nat) (position : Vec3) (frustumContains : Vec3 → Bool)
    (castRay : Vec3 → List Hit) :
    List TargetDescriptor → Option Target → Option ℚ → Option Target
  | [], tgt, _ => tgt
  | d :: rest, tgt, closest =>
      if d.handle ≠ selfHandle ∧ frustumContains d.position = true then
        if hitLoopOccluded (castRay d.position) then
          targetLoop selfHandle position frustumContains castRay rest tgt closest
        else
          let sqrD := position.sqrDistance d.position
          if beatsClosest sqrD closest then
            targetLoop selfHandle position frustumContains castRay rest
              (some { position := d.position, handle := d.handle }) (some sqrD)
          else
            targetLoop selfHandle position frustumContains castRay rest tgt closest
      else
        targetLoop selfHandle position frustumContains castRay rest tgt closest

/-- `Bot::select_target` from src/bot/mod.rs, acting on the bot's stored
`target`.  `position` is `self.character.position(&scene.physics)`,
`frustumContains` is `self.frustum.is_contains_point`, and `castRay p` is the
sorted hit list of `scene.physics.cast_ray` on the ray from candidate
position `p` to the bot.  If the current target is still a live candidate its
cached position is refreshed and the scan ends; otherwise the nearest
in-frustum unoccluded candidate (if any) overwrites the target. -/
def Bot.select_target (selfHandle : Nat) (position : Vec3)
    (frustumContains : Vec3 → Bool) (castRay : Vec3 → List Hit)
    (target : Option Target) (targets : List TargetDescriptor) : Option Target :=
  match target with
  | some t =>
      match stickyCandidate selfHandle t targets with
      | some d => some { position := d.position, handle := t.handle }
      | none => targetLoop selfHandle position frustumContains castRay targets (some t) none
  | none => targetLoop selfHandle position frustumContains castRay targets none none

/-- A candidate qualifies for new-target selection: not the bot itself, inside
the stored view frustum, and not occluded by a triangle-mesh collider. -/
def qualifies (selfHandle : Nat) (frustumContains : Vec3 → Bool)
    (castRay : Vec3 → List Hit) (d : TargetDescriptor) : Prop :=
  d.handle ≠ selfHandle ∧ frustumContains d.position = true ∧
    hitLoopOccluded (castRay d.position) = false

instance (selfHandle : Nat) (frustumContains : Vec3 → Bool)
    (castRay : Vec3 → List Hit) (d : TargetDescriptor) :
    Decidable (qualifies selfHandle frustumContains castRay d) :=
  inferInstanceAs (Decidable (_ ∧ _ ∧ _))

instance : Sub Vec3 :=
  ⟨fun a b => { x := a.x - b.x, y := a.y - b.y, z := a.z - b.z }⟩

/-- State of one animation clip as seen through the external animation
evaluator (spec §6): playback enabled flag, "has ended" flag, and the FIFO
queue of fired signal ids awaiting `pop_event`. -/
structure AnimState where
  enabled : Bool
  ended : Bool
  events : List Nat
deriving DecidableEq, Repr

/-- `Animation::rewind` of the external evaluator: the clip is moved back to
its start, so it no longer reports "has ended"; the signal queue is kept. -/
def AnimState.rewind (a : AnimState) : AnimState :=
  { a with ended := false }

/-- The navigation-mesh capability consumed by `Bot::rebuild_path` (spec §6):
nearest-vertex query and vertex-path computation, the latter returning `none`
on `Err`. -/
structure Navmesh where
  queryClosest : Vec3 → Option Nat
  buildPath : Nat → Nat → Option (List Vec3)

/-- The slice of `Bot` state read and written by the verified parts of
src/bot/mod.rs.  Field names follow the Rust struct. -/
structure BotState where
  target : Option Target
  path : List Vec3
  move_target : Vec3
  current_path_point : Nat
  last_path_rebuild_time : ℚ
  restoration_time : ℚ
  health : ℚ
  last_health : ℚ
  attack_timeout : ℚ
  attack_animation : AnimState
  walk_animation : AnimState
deriving Repr

/-- `Bot::rebuild_path` from src/bot/mod.rs.  The bot's position is projected
down by one unit; if both nearest-vertex queries succeed the path cursor is
reset to 0 (this happens before the path computation is attempted), and only
a successful `build_path` replaces the stored path (reversed) and stamps
`last_path_rebuild_time`. -/
def Bot.rebuild_path (s : BotState) (position : Vec3) (navmesh : Navmesh)
    (elapsed : ℚ) : BotState :=
  match s.target with
  | none => s
  | some target =>
      match navmesh.queryClosest (position - ⟨0, 1, 0⟩) with
      | none => s
      | some from_index =>
          match navmesh.queryClosest target.position with
          | none => s
          | some to_index =>
              let s1 := { s with current_path_point := 0 }
              match navmesh.buildPath from_index to_index with
              | some p =>
                  { s1 with path := p.reverse, last_path_rebuild_time := elapsed }
              | none => s1

/-- External inputs to one `Bot::update` tick: body position from physics,
the stored frustum test, ray casting, optional navmesh, clock, and the
locomotion-machine / ground queries.  `applyUpperFlags` is the (external,
src/bot/upper_body.rs) effect of `UpperBodyMachine::apply` on the attack
clip's `(enabled, ended)` flags; it never touches signal queues, which are
only popped explicitly. -/
structure BotUpdateContext where
  body_position : Vec3
  frustumContains : Vec3 → Bool
  castRay : Vec3 → List Hit
  navmesh : Option Navmesh
  elapsed : ℚ
  delta : ℚ
  is_walking : Bool
  has_ground_contact : Bool
  applyUpperFlags : Bool → Bool → Bool × Bool

/-- `in_close_combat` of `Bot::update`: distance from body to target is at
most the 0.75 close-combat threshold.  Compared on squares
(`9/16 = 0.75²`), which is equivalent for the nonnegative norm. -/
def inCloseCombat (target : Option Target) (body_position : Vec3) : Bool :=
  match target with
  | none => false
  | some t => decide (Vec3.sqrDistance t.position body_position ≤ 9 / 16)

/-- The waypoint-advance step of `Bot::update` (src/bot/mod.rs lines
584-591): `move_target` is set to `path[current_path_point]` when that index
is in bounds, and the cursor advances by one when within 0.75 units of the
waypoint (squared compare) and not at the final waypoint. -/
def waypointAdvance (s : BotState) (position : Vec3) : BotState :=
  match s.path[s.current_path_point]? with
  | none => s
  | some path_point =>
      let s := { s with move_target := path_point }
      if Vec3.sqrDistance s.move_target position ≤ 9 / 16 ∧
          s.current_path_point < s.path.length - 1 then
        { s with current_path_point := s.current_path_point + 1 }
      else s

/-- The was-damaged check of `Bot::update`: a health drop arms the 0.8 s
aim-restoration lockout, and `last_health` is refreshed. -/
def damageDetect (s : BotState) : BotState :=
  let s := if s.health < s.last_health then { s with restoration_time := 0.8 } else s
  { s with last_health := s.health }

/-- The death branch of `Bot::update`: when dead, the dying clips are enabled
(external to this state slice) and the attack clip is disabled. -/
def deathStep (s : BotState) : BotState :=
  if s.health ≤ 0 then
    { s with attack_animation := { s.attack_animation with enabled := false } }
  else s

/-- The melee drain of `Bot::update` (lines 653-671): guarded by
`if let Some(target)`, the attack clip's queue is fully popped (each
`HIT_SIGNAL` while in close combat sends a damage message to the external
sink). -/
def attackDrain (s : BotState) : BotState :=
  match s.target with
  | some _ => { s with attack_animation := { s.attack_animation with events := [] } }
  | none => s

/-- The footstep drain of `Bot::update` (lines 673-700): guarded by
`lower_body_machine.is_walking()`, the walk clip's queue is fully popped
(each `STEP_SIGNAL` while grounded sends a sound message to the external
sink). -/
def walkDrain (s : BotState) (is_walking : Bool) : BotState :=
  if is_walking then
    { s with walk_animation := { s.walk_animation with events := [] } }
  else s

/-- The re-plan cadence of `Bot::update` (lines 702-708): `rebuild_path` runs
when at least 1.0 s of simulated time passed since the last successful
rebuild and a navmesh exists. -/
def pathRebuildTick (s : BotState) (ctx : BotUpdateContext) : BotState :=
  if ctx.elapsed - s.last_path_rebuild_time ≥ 1 then
    match ctx.navmesh with
    | some navmesh => Bot.rebuild_path s ctx.body_position navmesh ctx.elapsed
    | none => s
  else s

/-- External `UpperBodyMachine::apply` effect on the attack clip's flags. -/
def applyUpperStep (s : BotState) (ctx : BotUpdateContext) : BotState :=
  let fl := ctx.applyUpperFlags s.attack_animation.enabled s.attack_animation.ended
  { s with attack_animation :=
      { s.attack_animation with enabled := fl.1, ended := fl.2 } }

/-- First half of the attack-cooldown gate of `Bot::update` (lines 737-744):
in close combat, with the cooldown expired and the clip ended or disabled,
the attack clip is re-enabled and rewound. -/
def attackReenable (in_close_combat : Bool) (attack_timeout : ℚ)
    (anim : AnimState) : AnimState :=
  if in_close_combat = true ∧ attack_timeout ≤ 0 ∧
      (anim.ended = true ∨ anim.enabled = false) then
    AnimState.rewind { anim with enabled := true }
  else anim

/-- Second half of the attack-cooldown gate (lines 746-748): the 0.3 s
cooldown is armed exactly when the timer is strictly negative and the clip
reports ended at that point. -/
def armAttackTimeout (attack_timeout : ℚ) (anim : AnimState) : ℚ :=
  if attack_timeout < 0 ∧ anim.ended = true then 3 / 10 else attack_timeout

/-- Both halves of the attack-cooldown gate applied in source order to the
`(attack_timeout, attack_animation)` pair. -/
def attackGateStep (s : BotState) (in_close_combat : Bool) : BotState :=
  let anim := attackReenable in_close_combat s.attack_timeout s.attack_animation
  { s with attack_animation := anim,
           attack_timeout := armAttackTimeout s.attack_timeout anim }

/-- `Bot::update` from src/bot/mod.rs, restricted to the state slice above
and sequenced as in the source: target selection, close-combat flag,
waypoint advance, damage detection, death branch, the two signal drains, the
re-plan cadence, restoration decay, the external machine application, the
attack-cooldown gate, and the cooldown decay.  Purely external effects
(velocity writes, frustum recomputation, message emission, aim smoothing)
have no footprint in this slice. -/
def Bot.update (s : BotState) (selfHandle : Nat) (ctx : BotUpdateContext)
    (targets : List TargetDescriptor) : BotState :=
  let s1 := { s with target := (Bot.select_target selfHandle ctx.body_position
                ctx.frustumContains ctx.castRay s.target targets) }
  let in_close_combat := inCloseCombat s1.target ctx.body_position
  let s2 := waypointAdvance s1 ctx.body_position
  let s3 := damageDetect s2
  let s4 := deathStep s3
  let s5 := attackDrain s4
  let s6 := walkDrain s5 ctx.is_walking
  let s7 := pathRebuildTick s6 ctx
  let s8 := { s7 with restoration_time := s7.restoration_time - ctx.delta }
  let s9 := applyUpperStep s8 ctx
  let s10 := attackGateStep s9 in_close_combat
  { s10 with attack_timeout := s10.attack_timeout - ctx.delta }

/-- `Direction` from src/player/mod.rs: the pending weapon-switch request. -/
inductive Direction where
  | None
  | Next
  | Previous
deriving DecidableEq, Repr

/-- The slice of `Player` state involved in weapon-switch sequencing:
the owned weapon handles and current index of `Character`, the pending
direction, and the grab / put-back clips of the upper-body machine. -/
structure PlayerState where
  weapons : List Nat
  current_weapon : Nat
  weapon_change_direction : Direction
  grab_animation : AnimState
  put_back_animation : AnimState
deriving DecidableEq, Repr

/-- `self.weapons.len() as u32 - 1` from `Player::process_input_event`:
unsigned 32-bit subtraction (wrapping, as compiled in release mode). -/
def u32_sub_one (n : Nat) : Nat :=
  (n + 4294967295) % 4294967296

/-- The `next_weapon` arm of `Player::process_input_event` (src/player/mod.rs
lines 956-972) on a press: only when `current_weapon < weapons.len() - 1`
does it set the pending direction to `Next`, rewind the put-back clip and
disable-and-rewind the grab clip; the weapon index itself is untouched. -/
def Player.press_next_weapon (p : PlayerState) : PlayerState :=
  if p.current_weapon < u32_sub_one p.weapons.length then
    { p with
      weapon_change_direction := Direction.Next,
      put_back_animation := p.put_back_animation.rewind,
      grab_animation := AnimState.rewind { p.grab_animation with enabled := false } }
  else p

/-- The `prev_weapon` arm of `Player::process_input_event` (lines 973-987) on
a press: only when `current_weapon > 0` does it set the pending direction to
`Previous`, rewind the put-back clip and disable-and-rewind the grab clip. -/
def Player.press_prev_weapon (p : PlayerState) : PlayerState :=
  if 0 < p.current_weapon then
    { p with
      weapon_change_direction := Direction.Previous,
      put_back_animation := p.put_back_animation.rewind,
      grab_animation := AnimState.rewind { p.grab_animation with enabled := false } }
  else p

/-- Modelled from the spec: `Character::next_weapon` (src/character.rs is not
among the provided sources).  Spec §4.5 and the §8 scenario fix its effect:
the grab-signal handler applies "the actual weapon-index change", and with
`current_weapon = 0` and three weapons the index becomes 1 — the index moves
one step forward when a next weapon exists. -/
def Character.next_weapon (p : PlayerState) : PlayerState :=
  if p.current_weapon + 1 < p.weapons.length then
    { p with current_weapon := p.current_weapon + 1 }
  else p

/-- Modelled from the spec: `Character::prev_weapon` (src/character.rs is not
among the provided sources) — the index moves one step back when a previous
weapon exists. -/
def Character.prev_weapon (p : PlayerState) : PlayerState :=
  if 0 < p.current_weapon then
    { p with current_weapon := p.current_weapon - 1 }
  else p

/-- `UpperBodyMachine::GRAB_WEAPON_SIGNAL` (src/player/upper_body.rs, not
among the provided sources): an opaque signal id, embedded as a constant. -/
def GRAB_WEAPON_SIGNAL : Nat := 1

/-- Handling of one popped grab-clip event in `Player::update` (src/player/
mod.rs lines 561-575): on the grab signal, the pending direction is applied
via `next_weapon`/`prev_weapon` and then cleared. -/
def grabSignalStep (p : PlayerState) (signal_id : Nat) : PlayerState :=
  if signal_id = GRAB_WEAPON_SIGNAL then
    let p1 :=
      match p.weapon_change_direction with
      | Direction.None => p
      | Direction.Next => Character.next_weapon p
      | Direction.Previous => Character.prev_weapon p
    { p1 with weapon_change_direction := Direction.None }
  else p

/-- The grab-clip drain loop of `Player::update` (lines 561-575): every
queued event is popped in FIFO order and handled; afterwards the queue is
empty. -/
def Player.update_grab_drain (p : PlayerState) : PlayerState :=
  let p1 := p.grab_animation.events.foldl grabSignalStep p
  { p1 with grab_animation := { p1.grab_animation with events := [] } }

/-- `SpawnPoint` from src/level.rs. -/
structure SpawnPoint where
  position : Vec3
  bot_kind : BotKind
  spawned : Bool
deriving DecidableEq, Repr

/-- The per-actor record the level-side claims read: whether the actor is a
`Actor::Bot`, the bot's stored target, health, and the physics-reported
position. -/
structure ActorRec where
  isBot : Bool
  botTarget : Option Target
  health : ℚ
  position : Vec3
deriving DecidableEq, Repr

/-- `ActorContainer` lookup (`contains`/`get`), embedded as an association
list from handle to record. -/
def lookupActor (actors : List (Nat × ActorRec)) (h : Nat) : Option ActorRec :=
  (actors.find? (fun p => p.1 = h)).map Prod.snd

/-- In-place mutation of the actor stored at a handle (`get_mut`). -/
def setActor (actors : List (Nat × ActorRec)) (h : Nat) (a : ActorRec) :
    List (Nat × ActorRec) :=
  actors.map (fun p => if p.1 = h then (p.1, a) else p)

/-- The level state touched by spawn handling: the spawn-point list and the
actor container (fresh handles allocated in sequence). -/
structure LevelState where
  spawn_points : List SpawnPoint
  actors : List (Nat × ActorRec)
  next_handle : Nat
deriving DecidableEq, Repr

/-- `spawn_bot` from src/level.rs applied to the spawn point at
`spawn_point_id`, as invoked by the `Message::SpawnBot` arm of
`Level::handle_message`: if the index is valid, the point's `spawned` flag is
set to `true` (unconditionally — the previous flag value is never read) and
`add_bot` adds a fresh `Actor::Bot` of the point's kind at the point's
position, with the definition-table health. -/
def Level.handle_spawn_bot (L : LevelState) (spawn_point_id : Nat) : LevelState :=
  match L.spawn_points[spawn_point_id]? with
  | none => L
  | some pt =>
      { L with
        spawn_points := L.spawn_points.set spawn_point_id { pt with spawned := true },
        actors := L.actors ++
          [(L.next_handle,
            { isBot := true, botTarget := none,
              health := (Bot.get_definition pt.bot_kind).health,
              position := pt.position })],
        next_handle := L.next_handle + 1 }

/-- `Bot::set_target` from src/bot/mod.rs lifted to the actor record. -/
def Bot.set_target (a : ActorRec) (handle : Nat) (position : Vec3) : ActorRec :=
  { a with botTarget := some { position := position, handle := handle } }

/-- Modelled from the spec: `Character::damage` (src/character.rs is not
among the provided sources).  The §8 scenario fixes its effect: a damage
message with `amount = 99999` against `health = 100` yields `health ≤ 0` —
health is reduced by the amount. -/
def Character.damage (a : ActorRec) (amount : ℚ) : ActorRec :=
  { a with health := a.health - amount }

/-- `Level::damage_actor` from src/level.rs (lines 761-785): requires the
victim to exist and the attacker handle to be `NONE` (embedded `none`) or an
existing actor; reads the attacker's position; if the victim is a bot and an
attacker position exists, calls `bot.set_target(actor_handle, who_position)`
— note the handle stored is the victim's own — and finally applies the
damage. -/
def Level.damage_actor (actors : List (Nat × ActorRec)) (actor_handle : Nat)
    (who : Option Nat) (amount : ℚ) : List (Nat × ActorRec) :=
  match lookupActor actors actor_handle with
  | none => actors
  | some victim =>
      let whoOk :=
        match who with
        | none => true
        | some w => (lookupActor actors w).isSome
      if whoOk then
        let who_position :=
          match who with
          | none => none
          | some w => (lookupActor actors w).map (fun a => a.position)
        let victim1 :=
          if victim.isBot then
            match who_position with
            | some wp => Bot.set_target victim actor_handle wp
            | none => victim
          else victim
        setActor actors actor_handle (Character.damage victim1 amount)
      else actors

/-- Concrete clip state used by the closed example theorems. -/
def baseAnim : AnimState :=
  { enabled := true, ended := false, events := [] }

/-- Concrete bot state used by the closed example theorems. -/
def baseBot : BotState :=
  { target := none
    path := []
    move_target := ⟨0, 0, 0⟩
    current_path_point := 0
    last_path_rebuild_time := 0
    restoration_time := 0
    health := 100
    last_health := 100
    attack_timeout := 0
    attack_animation := baseAnim
    walk_animation := baseAnim }

/-- Concrete update context used by the closed example theorems: no navmesh,
empty physics, identity machine application. -/
def baseCtx : BotUpdateContext :=
  { body_position := ⟨0, 0, 0⟩
    frustumContains := fun _ => false
    castRay := fun _ => []
    navmesh := none
    elapsed := 0
    delta := 1 / 60
    is_walking := false
    has_ground_contact := false
    applyUpperFlags := fun e en => (e, en) }

/-- Concrete navmesh whose nearest-vertex queries succeed but whose path
computation fails, used by the closed example theorems. -/
def failingBuildNavmesh : Navmesh :=
  { queryClosest := fun _ => some 0
    buildPath := fun _ _ => none }

/-- Concrete navmesh whose queries and path computation all succeed, used by
the closed example theorems. -/
def successNavmesh : Navmesh :=
  { queryClosest := fun _ => some 0
    buildPath := fun _ _ => some [⟨3, 0, 3⟩, ⟨4, 0, 4⟩] }

/-- Concrete player in the §8 scenario: three weapons, index 0, no pending
switch. -/
def scenarioPlayer : PlayerState :=
  { weapons := [10, 11, 12]
    current_weapon := 0
    weapon_change_direction := Direction.None
    grab_animation := baseAnim
    put_back_animation := baseAnim }

/-! ## Theorems -/

/-- C8: the identity `(Bot::get_definition k).kind = k` holds exactly for
`Mutant` and `Parasite` and fails for `Zombie`, whose definition table
self-reports `kind = Parasite`. -/
theorem get_definition_kind_self_report :
    (∀ k : BotKind, (Bot.get_definition k).kind = k ↔ k ≠ BotKind.Zombie) ∧
      (Bot.get_definition BotKind.Zombie).kind = BotKind.Parasite := by
  refine ⟨fun k => ?_, rfl⟩
  cases k <;> simp [Bot.get_definition]

/-- The sticky scan finds the first candidate matching the current target:
if some candidate is not the bot, carries the target's handle and has
positive health, `stickyCandidate` returns such a candidate from the list. -/
theorem stickyCandidate_spec (selfHandle : Nat) (t : Target)
    (l : List TargetDescriptor)
    (h : ∃ d ∈ l, d.handle ≠ selfHandle ∧ d.handle = t.handle ∧ 0 < d.health) :
    ∃ d, stickyCandidate selfHandle t l = some d ∧ d ∈ l ∧
      d.handle = t.handle ∧ 0 < d.health := by
  induction l with
  | nil => simp at h
  | cons a rest ih =>
      by_cases ha : a.handle ≠ selfHandle ∧ a.handle = t.handle ∧ 0 < a.health
      · exact ⟨a, by simp only [stickyCandidate, if_pos ha],
          List.mem_cons_self a rest, ha.2.1, ha.2.2⟩
      · obtain ⟨d, hd, hP⟩ := h
        rcases List.mem_cons.mp hd with rfl | hd2
        · exact absurd hP ha
        · obtain ⟨d2, h1, h2, h3, h4⟩ := ih ⟨d, hd2, hP⟩
          exact ⟨d2, by simp only [stickyCandidate, if_neg ha]; exact h1,
            List.mem_cons_of_mem a h2, h3, h4⟩

/-- C1: sticky-target law.  If the bot already holds a target whose handle
appears in the candidate list with positive health (and is not the bot
itself), `Bot::select_target` keeps the target handle — it is never replaced
by any other candidate, however close — and refreshes the cached position to
that candidate's position. -/
theorem select_target_sticky (selfHandle : Nat) (position : Vec3)
    (frustumContains : Vec3 → Bool) (castRay : Vec3 → List Hit)
    (t : Target) (targets : List TargetDescriptor)
    (h : ∃ d ∈ targets, d.handle ≠ selfHandle ∧ d.handle = t.handle ∧ 0 < d.health) :
    ∃ d ∈ targets, d.handle = t.handle ∧ 0 < d.health ∧
      Bot.select_target selfHandle position frustumContains castRay
          (some t) targets
        = some { position := d.position, handle := t.handle } := by
  obtain ⟨d, h1, h2, h3, h4⟩ := stickyCandidate_spec selfHandle t targets h
  exact ⟨d, h2, h3, h4, by simp [Bot.select_target, h1]⟩

/-- Witness for C1 at a concrete input: bot 0 holds target handle 5; the
candidate list still carries handle 5 (health 10) at position (1,2,3); after
the call the target is handle 5 at the refreshed position. -/
theorem select_target_sticky_witness :
    ∃ d ∈ [({ handle := 5, position := ⟨1, 2, 3⟩, health := 10 } : TargetDescriptor)],
      d.handle = 5 ∧ 0 < d.health ∧
      Bot.select_target 0 ⟨0, 0, 0⟩ (fun _ => true) (fun _ => [])
          (some { position := ⟨9, 9, 9⟩, handle := 5 })
          [{ handle := 5, position := ⟨1, 2, 3⟩, health := 10 }]
        = some { position := d.position, handle := 5 } :=
  select_target_sticky 0 ⟨0, 0, 0⟩ (fun _ => true) (fun _ => [])
    { position := ⟨9, 9, 9⟩, handle := 5 }
    [{ handle := 5, position := ⟨1, 2, 3⟩, health := 10 }] (by decide)

/-- Counterexample to C3 as stated: with a stored path cursor of 1, both
nearest-vertex queries succeeding and the vertex-path computation failing,
`Bot::rebuild_path` resets `current_path_point` to 0 — it is not left
unchanged on this failure stage (path and rebuild timestamp are). -/
theorem rebuild_path_cursor_reset_counterexample :
    ({ baseBot with
        target := some { position := ⟨5, 0, 5⟩, handle := 7 },
        path := [⟨0, 0, 0⟩, ⟨1, 0, 0⟩],
        current_path_point := 1 } : BotState).current_path_point = 1 ∧
    (Bot.rebuild_path
        { baseBot with
          target := some { position := ⟨5, 0, 5⟩, handle := 7 },
          path := [⟨0, 0, 0⟩, ⟨1, 0, 0⟩],
          current_path_point := 1 }
        ⟨0, 0, 0⟩ failingBuildNavmesh 5).current_path_point = 0 := by
  constructor <;> rfl

/-- C3 (amended): `Bot::rebuild_path` leaves `path`, `current_path_point`
and `last_path_rebuild_time` unchanged when either nearest-vertex query
fails; when both succeed and the vertex-path computation fails, `path` and
`last_path_rebuild_time` are still unchanged but `current_path_point` has
already been reset to 0. -/
theorem rebuild_path_failure_cases (s : BotState) (position : Vec3)
    (nm : Navmesh) (elapsed : ℚ) (t : Target) (ht : s.target = some t) :
    (nm.queryClosest (position - ⟨0, 1, 0⟩) = none →
        Bot.rebuild_path s position nm elapsed = s) ∧
    (∀ fi, nm.queryClosest (position - ⟨0, 1, 0⟩) = some fi →
      (nm.queryClosest t.position = none →
          Bot.rebuild_path s position nm elapsed = s) ∧
      (∀ ti, nm.queryClosest t.position = some ti →
          nm.buildPath fi ti = none →
          Bot.rebuild_path s position nm elapsed
            = { s with current_path_point := 0 })) := by
  refine ⟨fun h1 => ?_, fun fi h1 => ⟨fun h2 => ?_, fun ti h2 h3 => ?_⟩⟩
  · simp [Bot.rebuild_path, ht, h1]
  · simp [Bot.rebuild_path, ht, h1, h2]
  · simp [Bot.rebuild_path, ht, h1, h2, h3]

/-- Witness for C3 (amended) at a concrete input: on the failing-build
navmesh, the queries return vertex 0 and the build fails, so only the cursor
is reset. -/
theorem rebuild_path_failure_cases_witness :
    Bot.rebuild_path
        { baseBot with
          target := some { position := ⟨5, 0, 5⟩, handle := 7 },
          path := [⟨0, 0, 0⟩, ⟨1, 0, 0⟩],
          current_path_point := 1 }
        ⟨0, 0, 0⟩ failingBuildNavmesh 5
      = { ({ baseBot with
              target := some { position := ⟨5, 0, 5⟩, handle := 7 },
              path := [⟨0, 0, 0⟩, ⟨1, 0, 0⟩],
              current_path_point := 1 } : BotState) with
          current_path_point := 0 } :=
  ((rebuild_path_failure_cases _ ⟨0, 0, 0⟩ failingBuildNavmesh 5 _ rfl).2
      0 rfl).2 0 rfl rfl

/-- C6: attack-cooldown gating.  Against the clip state read at the arming
check (that is, after the re-enable half has run), the gate of `Bot::update`
(1) re-enables and rewinds the attack clip when in close combat with the
cooldown expired and the clip ended or disabled, (2) arms the 0.3 s cooldown
exactly when the timer is strictly negative and the clip reports ended, and
(3) at a timer of exactly 0 never arms. -/
theorem attack_cooldown_gating (s : BotState) (in_cc : Bool) :
    (in_cc = true → s.attack_timeout ≤ 0 →
      (s.attack_animation.ended = true ∨ s.attack_animation.enabled = false) →
        (attackGateStep s in_cc).attack_animation.enabled = true ∧
        (attackGateStep s in_cc).attack_animation.ended = false) ∧
    (s.attack_timeout < 0 →
      (attackGateStep s in_cc).attack_animation.ended = true →
        (attackGateStep s in_cc).attack_timeout = 3 / 10) ∧
    (¬ (s.attack_timeout < 0 ∧
          (attackGateStep s in_cc).attack_animation.ended = true) →
        (attackGateStep s in_cc).attack_timeout = s.attack_timeout) ∧
    (s.attack_timeout = 0 → (attackGateStep s in_cc).attack_timeout = 0) := by
  refine ⟨fun h1 h2 h3 => ?_, fun h1 h2 => ?_, fun h => ?_, fun h0 => ?_⟩
  · have hc : in_cc = true ∧ s.attack_timeout ≤ 0 ∧
        (s.attack_animation.ended = true ∨ s.attack_animation.enabled = false) :=
      ⟨h1, h2, h3⟩
    simp [attackGateStep, attackReenable, if_pos hc, AnimState.rewind]
  · simp only [attackGateStep] at h2 ⊢
    simp only [armAttackTimeout, if_pos (And.intro h1 h2)]
  · simp only [attackGateStep] at h ⊢
    simp only [armAttackTimeout, if_neg (by exact_mod_cast h)]
  · simp only [attackGateStep, armAttackTimeout]
    rw [if_neg]
    · exact h0
    · rintro ⟨hlt, _⟩
      rw [h0] at hlt
      exact absurd hlt (lt_irrefl 0)

/-- Witness for C6 at concrete inputs: with the clip ended, a timer of -1/10
arms the 0.3 s cooldown, a timer of exactly 0 does not, and in close combat
with timer 0 and the clip ended, the clip is re-enabled. -/
theorem attack_cooldown_gating_witness :
    (attackGateStep
        { baseBot with
          attack_timeout := -1/10,
          attack_animation := { enabled := true, ended := true, events := [] } }
        false).attack_timeout = 3 / 10 ∧
    (attackGateStep
        { baseBot with
          attack_timeout := 0,
          attack_animation := { enabled := true, ended := true, events := [] } }
        false).attack_timeout = 0 ∧
    (attackGateStep
        { baseBot with
          attack_timeout := 0,
          attack_animation := { enabled := true, ended := true, events := [] } }
        true).attack_animation.enabled = true :=
  ⟨(attack_cooldown_gating _ false).2.1 (by norm_num) (by decide),
   (attack_cooldown_gating _ false).2.2.2 rfl,
   ((attack_cooldown_gating _ true).1 rfl (le_refl 0) (Or.inl rfl)).1⟩

/-- Draining grab-clip events none of which is the grab signal leaves the
player state unchanged (each step is the identity). -/
theorem foldl_grabSignalStep_no_grab (evs : List Nat) (p : PlayerState)
    (h : ∀ e ∈ evs, e ≠ GRAB_WEAPON_SIGNAL) :
    evs.foldl grabSignalStep p = p := by
  induction evs generalizing p with
  | nil => rfl
  | cons a rest ih =>
      have ha : a ≠ GRAB_WEAPON_SIGNAL := h a (List.mem_cons_self a rest)
      simp only [List.foldl_cons]
      rw [show grabSignalStep p a = p from by simp [grabSignalStep, ha]]
      exact ih p (fun e he => h e (List.mem_cons_of_mem a he))

/-- C5: weapon-switch sequencing for a player with `current_weapon = 0` and
three weapons.  A Previous press is a no-op; a Next press only records the
pending `Next` direction (in general a press never moves the index, and the
direction is set only under the `current_weapon < weapons.len() - 1` guard);
the index becomes 1 — and the pending direction is cleared — only when the
grab clip's grab signal is drained (a drain without grab signals never moves
the index). -/
theorem weapon_switch_sequencing :
    (Player.press_prev_weapon scenarioPlayer = scenarioPlayer) ∧
    ((Player.press_next_weapon scenarioPlayer).weapon_change_direction
        = Direction.Next ∧
      (Player.press_next_weapon scenarioPlayer).current_weapon = 0) ∧
    (∀ p : PlayerState,
      (Player.press_next_weapon p).current_weapon = p.current_weapon) ∧
    (∀ p : PlayerState, ¬ p.current_weapon < u32_sub_one p.weapons.length →
      Player.press_next_weapon p = p) ∧
    (∀ p : PlayerState, (∀ e ∈ p.grab_animation.events, e ≠ GRAB_WEAPON_SIGNAL) →
      (Player.update_grab_drain p).current_weapon = p.current_weapon) ∧
    ((Player.update_grab_drain
        { (Player.press_next_weapon scenarioPlayer) with
          grab_animation :=
            { (Player.press_next_weapon scenarioPlayer).grab_animation with
              events := [GRAB_WEAPON_SIGNAL] } }).current_weapon = 1 ∧
      (Player.update_grab_drain
        { (Player.press_next_weapon scenarioPlayer) with
          grab_animation :=
            { (Player.press_next_weapon scenarioPlayer).grab_animation with
              events := [GRAB_WEAPON_SIGNAL] } }).weapon_change_direction
        = Direction.None) := by
  refine ⟨by decide, ⟨by decide, by decide⟩, fun p => ?_, fun p h => ?_,
    fun p h => ?_, by decide, by decide⟩
  · unfold Player.press_next_weapon
    split <;> rfl
  · unfold Player.press_next_weapon
    rw [if_neg h]
  · unfold Player.update_grab_drain
    rw [foldl_grabSignalStep_no_grab _ _ h]

/-- Witness for C5's quantified parts at concrete inputs: a Next press with
`current_weapon = 2` of 3 is rejected by the guard, an empty grab queue moves
nothing, and a Next press never moves the index. -/
theorem weapon_switch_sequencing_witness :
    (Player.press_next_weapon { scenarioPlayer with current_weapon := 2 }
      = { scenarioPlayer with current_weapon := 2 }) ∧
    ((Player.update_grab_drain scenarioPlayer).current_weapon
      = scenarioPlayer.current_weapon) ∧
    ((Player.press_next_weapon scenarioPlayer).current_weapon
      = scenarioPlayer.current_weapon) :=
  ⟨weapon_switch_sequencing.2.2.2.1 _ (by decide),
   weapon_switch_sequencing.2.2.2.2.1 scenarioPlayer (by decide),
   weapon_switch_sequencing.2.2.1 scenarioPlayer⟩

/-- Counterexample to C9 as stated: a spawn point whose `spawned` flag is
already `true` is still used — handling `SpawnBot` for its index adds a new
bot actor, because `spawn_bot` never reads the flag. -/
theorem spawn_point_reused_counterexample :
    ({ position := ⟨0, 0, 0⟩, bot_kind := BotKind.Zombie, spawned := true }
        : SpawnPoint).spawned = true ∧
    (Level.handle_spawn_bot
        { spawn_points :=
            [{ position := ⟨0, 0, 0⟩, bot_kind := BotKind.Zombie, spawned := true }],
          actors := [], next_handle := 0 } 0).actors.length = 1 := by
  constructor <;> rfl

/-- C9 (amended): the `spawned` flag is monotonic — handling a `SpawnBot`
message never resets a set flag — but it is not consumed-once: a `SpawnBot`
message for any valid index spawns a bot regardless of the flag. -/
theorem spawn_point_monotonic_not_consumed_once :
    (∀ (L : LevelState) (i j : Nat) (pt : SpawnPoint),
      L.spawn_points[j]? = some pt → pt.spawned = true →
        ∃ pt2, (Level.handle_spawn_bot L i).spawn_points[j]? = some pt2 ∧
          pt2.spawned = true) ∧
    (∀ (L : LevelState) (i : Nat) (pt : SpawnPoint),
      L.spawn_points[i]? = some pt →
        (Level.handle_spawn_bot L i).actors.length = L.actors.length + 1) := by
  constructor
  · intro L i j pt hj hsp
    unfold Level.handle_spawn_bot
    cases hi : L.spawn_points[i]? with
    | none => exact ⟨pt, hj, hsp⟩
    | some pti =>
        by_cases hij : i = j
        · subst hij
          have hlen : i < L.spawn_points.length := by
            by_contra hge
            rw [List.getElem?_eq_none (Nat.le_of_not_lt hge)] at hi
            cases hi
          exact ⟨{ pti with spawned := true },
            by simpa using List.getElem?_set_eq_of_lt _ hlen, rfl⟩
        · exact ⟨pt, by simpa using (List.getElem?_set_ne hij).trans hj, hsp⟩
  · intro L i pt hi
    unfold Level.handle_spawn_bot
    rw [hi]
    simp

/-- Witness for C9 (amended) at a concrete input: an already-spawned point
stays spawned across an unrelated spawn command, and spawning at a valid
index grows the actor container by one. -/
theorem spawn_point_monotonic_not_consumed_once_witness :
    (∃ pt2, (Level.handle_spawn_bot
        { spawn_points :=
            [{ position := ⟨0, 0, 0⟩, bot_kind := BotKind.Zombie, spawned := true }],
          actors := [], next_handle := 0 } 0).spawn_points[0]? = some pt2 ∧
        pt2.spawned = true) ∧
    (Level.handle_spawn_bot
        { spawn_points :=
            [{ position := ⟨0, 0, 0⟩, bot_kind := BotKind.Zombie, spawned := true }],
          actors := [], next_handle := 0 } 0).actors.length = 0 + 1 :=
  ⟨spawn_point_monotonic_not_consumed_once.1 _ 0 0 _ rfl rfl,
   spawn_point_monotonic_not_consumed_once.2 _ 0
     { position := ⟨0, 0, 0⟩, bot_kind := BotKind.Zombie, spawned := true } rfl⟩

/-- Updating the actor stored at a contained handle makes lookup at that
handle return the new record. -/
theorem lookupActor_setActor_self (actors : List (Nat × ActorRec)) (h : Nat)
    (a : ActorRec) (hc : (lookupActor actors h).isSome = true) :
    lookupActor (setActor actors h a) h = some a := by
  induction actors with
  | nil => simp [lookupActor] at hc
  | cons p rest ih =>
      by_cases hp : p.1 = h
      · unfold lookupActor setActor
        simp only [List.map_cons, if_pos hp]
        rw [List.find?_cons_of_pos _ (by simpa using hp)]
        rfl
      · unfold lookupActor at hc
        unfold lookupActor setActor
        simp only [List.map_cons, if_neg hp]
        rw [List.find?_cons_of_neg _ (by simpa using hp)]
        rw [List.find?_cons_of_neg _ (by simpa using hp)] at hc
        exact ih hc

/-- Counterexample to C10 as stated: in the degenerate self-damage call
`damage_actor(3, who = 3)` against a living bot stored at handle 3, the
stored target handle (the victim's own handle, 3) does equal the attacker
handle (also 3), so "the stored target handle never equals the attacker"
fails. -/
theorem damage_actor_self_attacker_counterexample :
    (lookupActor
        (Level.damage_actor
          [(3, { isBot := true, botTarget := none, health := 100,
                 position := ⟨7, 8, 9⟩ })] 3 (some 3) 5) 3).map
        (fun a => a.botTarget)
      = some (some { position := ⟨7, 8, 9⟩, handle := 3 }) := by
  rfl

/-- C10 (amended): when the victim exists and is a bot and the attacker
handle refers to an existing actor, `Level::damage_actor` stores a target
whose position is the attacker's position and whose handle is the victim's
own handle `actor_handle` (and applies the damage); consequently the stored
handle differs from the attacker whenever the attacker is a different actor
than the victim. -/
theorem damage_actor_sets_victim_handle_target (actors : List (Nat × ActorRec))
    (actor_handle w : Nat) (amount : ℚ) (victim attacker : ActorRec)
    (hv : lookupActor actors actor_handle = some victim)
    (hb : victim.isBot = true)
    (hw : lookupActor actors w = some attacker) :
    ∃ rec2,
      lookupActor (Level.damage_actor actors actor_handle (some w) amount)
          actor_handle = some rec2 ∧
      rec2.botTarget
        = some { position := attacker.position, handle := actor_handle } ∧
      rec2.health = victim.health - amount ∧
      (w ≠ actor_handle → ∀ tg : Target, rec2.botTarget = some tg →
        tg.handle ≠ w) := by
  have hc : (lookupActor actors actor_handle).isSome = true := by
    rw [hv]; rfl
  refine ⟨Character.damage
      (Bot.set_target victim actor_handle attacker.position) amount, ?_, rfl, rfl, ?_⟩
  · have : Level.damage_actor actors actor_handle (some w) amount
        = setActor actors actor_handle
            (Character.damage (Bot.set_target victim actor_handle attacker.position)
              amount) := by
      simp [Level.damage_actor, hv, hw, hb]
    rw [this]
    exact lookupActor_setActor_self actors actor_handle _ hc
  · intro hne tg htg
    have : tg = { position := attacker.position, handle := actor_handle } := by
      simpa [Character.damage, Bot.set_target] using htg.symm
    rw [this]
    exact fun hcontra => hne (hcontra.symm)

/-- Witness for C10 (amended) at a concrete input: bot 3 damaged by actor 4;
the stored target carries actor 4's position but handle 3, which differs
from the attacker handle 4. -/
theorem damage_actor_sets_victim_handle_target_witness :
    ∃ rec2,
      lookupActor
          (Level.damage_actor
            [(3, { isBot := true, botTarget := none, health := 100,
                   position := ⟨7, 8, 9⟩ }),
             (4, { isBot := false, botTarget := none, health := 50,
                   position := ⟨1, 1, 1⟩ })] 3 (some 4) 5) 3 = some rec2 ∧
      rec2.botTarget = some { position := ⟨1, 1, 1⟩, handle := 3 } ∧
      rec2.health = 100 - 5 ∧
      ((4 : Nat) ≠ 3 → ∀ tg : Target, rec2.botTarget = some tg → tg.handle ≠ 4) :=
  damage_actor_sets_victim_handle_target _ 3 4 5
    { isBot := true, botTarget := none, health := 100, position := ⟨7, 8, 9⟩ }
    { isBot := false, botTarget := none, health := 50, position := ⟨1, 1, 1⟩ }
    rfl rfl rfl

/-- Shape of the waypoint-advance step: it leaves the state unchanged, or
only freshens `move_target`, or additionally advances the cursor by exactly
one — and then only when the cursor waypoint exists, is within 0.75 units,
and is not the final one. -/
theorem waypointAdvance_shape (s : BotState) (p : Vec3) :
    waypointAdvance s p = s ∨
    (∃ m, waypointAdvance s p = { s with move_target := m }) ∨
    (∃ pp, s.path[s.current_path_point]? = some pp ∧
      Vec3.sqrDistance pp p ≤ 9 / 16 ∧
      s.current_path_point < s.path.length - 1 ∧
      s.current_path_point + 1 < s.path.length ∧
      waypointAdvance s p
        = { s with move_target := pp,
                   current_path_point := s.current_path_point + 1 }) := by
  unfold waypointAdvance
  cases h : s.path[s.current_path_point]? with
  | none => exact Or.inl rfl
  | some pp =>
      have hlen : s.current_path_point < s.path.length :=
        (List.getElem?_eq_some.1 h).1
      dsimp only
      by_cases hc : Vec3.sqrDistance pp p ≤ 9 / 16 ∧
          s.current_path_point < s.path.length - 1
      · refine Or.inr (Or.inr ⟨pp, rfl, hc.1, hc.2, by omega, ?_⟩)
        rw [if_pos hc]
      · exact Or.inr (Or.inl ⟨pp, by rw [if_neg hc]⟩)

/-- Shape of the damage-detect step: only `restoration_time` and
`last_health` change. -/
theorem damageDetect_shape (s : BotState) :
    ∃ r, damageDetect s
      = { s with restoration_time := r, last_health := s.health } := by
  unfold damageDetect
  by_cases h : s.health < s.last_health
  · exact ⟨0.8, by rw [if_pos h]⟩
  · exact ⟨s.restoration_time, by rw [if_neg h]⟩

/-- Shape of the death branch: only the attack clip's enabled flag may
change. -/
theorem deathStep_shape (s : BotState) :
    ∃ e, deathStep s
      = { s with attack_animation := { s.attack_animation with enabled := e } } := by
  unfold deathStep
  by_cases h : s.health ≤ 0
  · exact ⟨false, by rw [if_pos h]⟩
  · exact ⟨s.attack_animation.enabled, by rw [if_neg h]⟩

/-- The melee drain empties the attack clip's queue exactly when a target is
held, and touches nothing else. -/
theorem attackDrain_shape (s : BotState) :
    attackDrain s
      = { s with attack_animation := { s.attack_animation with
            events := if s.target.isSome = true then []
                      else s.attack_animation.events } } := by
  obtain ⟨tgt, pa, mt, cpp, lt, rt, hp, lh, ato, aa, wa⟩ := s
  cases tgt <;> rfl

/-- The footstep drain empties the walk clip's queue exactly when the
locomotion machine reports walking, and touches nothing else. -/
theorem walkDrain_shape (s : BotState) (b : Bool) :
    walkDrain s b
      = { s with walk_animation := { s.walk_animation with
            events := if b = true then [] else s.walk_animation.events } } := by
  unfold walkDrain
  cases b <;> rfl

/-- Shape of `Bot::rebuild_path`: unchanged, or only the cursor reset to 0,
or cursor reset with a fresh path and rebuild timestamp. -/
theorem rebuild_path_shape (s : BotState) (pos : Vec3) (nm : Navmesh) (e : ℚ) :
    Bot.rebuild_path s pos nm e = s ∨
    Bot.rebuild_path s pos nm e = { s with current_path_point := 0 } ∨
    ∃ p, Bot.rebuild_path s pos nm e
      = { s with current_path_point := 0, path := p,
                 last_path_rebuild_time := e } := by
  unfold Bot.rebuild_path
  cases ht : s.target with
  | none => exact Or.inl rfl
  | some t =>
      dsimp only
      cases h1 : nm.queryClosest (pos - ⟨0, 1, 0⟩) with
      | none => exact Or.inl rfl
      | some fi =>
          dsimp only
          cases h2 : nm.queryClosest t.position with
          | none => exact Or.inl rfl
          | some ti =>
              dsimp only
              cases h3 : nm.buildPath fi ti with
              | none => exact Or.inr (Or.inl rfl)
              | some p => exact Or.inr (Or.inr ⟨p.reverse, rfl⟩)

/-- Shape of the re-plan cadence step, inherited from `rebuild_path`. -/
theorem pathRebuildTick_shape (s : BotState) (ctx : BotUpdateContext) :
    pathRebuildTick s ctx = s ∨
    pathRebuildTick s ctx = { s with current_path_point := 0 } ∨
    ∃ p, pathRebuildTick s ctx
      = { s with current_path_point := 0, path := p,
                 last_path_rebuild_time := ctx.elapsed } := by
  unfold pathRebuildTick
  by_cases h : ctx.elapsed - s.last_path_rebuild_time ≥ 1
  · rw [if_pos h]
    cases ctx.navmesh with
    | none => exact Or.inl rfl
    | some nm => exact rebuild_path_shape s ctx.body_position nm ctx.elapsed
  · rw [if_neg h]
    exact Or.inl rfl

/-- Shape of the external machine application: only the attack clip's flags
may change. -/
theorem applyUpperStep_shape (s : BotState) (ctx : BotUpdateContext) :
    ∃ e en, applyUpperStep s ctx
      = { s with attack_animation :=
            { s.attack_animation with enabled := e, ended := en } } :=
  ⟨_, _, rfl⟩

/-- Shape of the attack-cooldown gate: only the attack clip's flags and the
cooldown timer may change; the signal queue is untouched. -/
theorem attackGateStep_shape (s : BotState) (b : Bool) :
    ∃ e en t, attackGateStep s b
      = { s with
          attack_animation := { s.attack_animation with enabled := e, ended := en },
          attack_timeout := t } := by
  unfold attackGateStep attackReenable AnimState.rewind
  by_cases h : b = true ∧ s.attack_timeout ≤ 0 ∧
      (s.attack_animation.ended = true ∨ s.attack_animation.enabled = false)
  · rw [if_pos h]
    exact ⟨true, false, _, rfl⟩
  · rw [if_neg h]
    exact ⟨s.attack_animation.enabled, s.attack_animation.ended, _, rfl⟩

/-- The re-enable half of the gate never touches the attack clip's queue. -/
theorem attackReenable_events (b : Bool) (t : ℚ) (a : AnimState) :
    (attackReenable b t a).events = a.events := by
  unfold attackReenable AnimState.rewind
  split <;> rfl

/-- Waypoint advance leaves the target untouched. -/
theorem waypointAdvance_target (s : BotState) (p : Vec3) :
    (waypointAdvance s p).target = s.target := by
  obtain h | ⟨m, h⟩ | ⟨pp, _, _, _, _, h⟩ := waypointAdvance_shape s p <;> rw [h]

/-- Waypoint advance leaves the path untouched. -/
theorem waypointAdvance_path (s : BotState) (p : Vec3) :
    (waypointAdvance s p).path = s.path := by
  obtain h | ⟨m, h⟩ | ⟨pp, _, _, _, _, h⟩ := waypointAdvance_shape s p <;> rw [h]

/-- Waypoint advance leaves the attack clip untouched. -/
theorem waypointAdvance_attack_animation (s : BotState) (p : Vec3) :
    (waypointAdvance s p).attack_animation = s.attack_animation := by
  obtain h | ⟨m, h⟩ | ⟨pp, _, _, _, _, h⟩ := waypointAdvance_shape s p <;> rw [h]

/-- Waypoint advance leaves the walk clip untouched. -/
theorem waypointAdvance_walk_animation (s : BotState) (p : Vec3) :
    (waypointAdvance s p).walk_animation = s.walk_animation := by
  obtain h | ⟨m, h⟩ | ⟨pp, _, _, _, _, h⟩ := waypointAdvance_shape s p <;> rw [h]

/-- Waypoint advance leaves the rebuild timestamp untouched. -/
theorem waypointAdvance_rebuild_time (s : BotState) (p : Vec3) :
    (waypointAdvance s p).last_path_rebuild_time = s.last_path_rebuild_time := by
  obtain h | ⟨m, h⟩ | ⟨pp, _, _, _, _, h⟩ := waypointAdvance_shape s p <;> rw [h]

/-- The waypoint cursor either stays or advances by exactly one; an advance
keeps it within bounds and happens only when the cursor waypoint exists, is
within 0.75 units, and is not the final one. -/
theorem waypointAdvance_cursor_cases (s : BotState) (p : Vec3) :
    (waypointAdvance s p).current_path_point = s.current_path_point ∨
    ((waypointAdvance s p).current_path_point = s.current_path_point + 1 ∧
      s.current_path_point + 1 < s.path.length ∧
      ∃ pp, s.path[s.current_path_point]? = some pp ∧
        Vec3.sqrDistance pp p ≤ 9 / 16 ∧
        s.current_path_point < s.path.length - 1) := by
  obtain h | ⟨m, h⟩ | ⟨pp, hpp, hd, hfin, hlen, h⟩ := waypointAdvance_shape s p
  · exact Or.inl (by rw [h])
  · exact Or.inl (by rw [h])
  · exact Or.inr ⟨by rw [h], hlen, pp, hpp, hd, hfin⟩

/-- Damage detection leaves the target untouched. -/
theorem damageDetect_target (s : BotState) :
    (damageDetect s).target = s.target := by
  obtain ⟨r, h⟩ := damageDetect_shape s; rw [h]

/-- Damage detection leaves the path untouched. -/
theorem damageDetect_path (s : BotState) :
    (damageDetect s).path = s.path := by
  obtain ⟨r, h⟩ := damageDetect_shape s; rw [h]

/-- Damage detection leaves the cursor untouched. -/
theorem damageDetect_cursor (s : BotState) :
    (damageDetect s).current_path_point = s.current_path_point := by
  obtain ⟨r, h⟩ := damageDetect_shape s; rw [h]

/-- Damage detection leaves the attack clip untouched. -/
theorem damageDetect_attack_animation (s : BotState) :
    (damageDetect s).attack_animation = s.attack_animation := by
  obtain ⟨r, h⟩ := damageDetect_shape s; rw [h]

/-- Damage detection leaves the walk clip untouched. -/
theorem damageDetect_walk_animation (s : BotState) :
    (damageDetect s).walk_animation = s.walk_animation := by
  obtain ⟨r, h⟩ := damageDetect_shape s; rw [h]

/-- The death branch leaves the target untouched. -/
theorem deathStep_target (s : BotState) :
    (deathStep s).target = s.target := by
  obtain ⟨e, h⟩ := deathStep_shape s; rw [h]

/-- The death branch leaves the path untouched. -/
theorem deathStep_path (s : BotState) :
    (deathStep s).path = s.path := by
  obtain ⟨e, h⟩ := deathStep_shape s; rw [h]

/-- The death branch leaves the cursor untouched. -/
theorem deathStep_cursor (s : BotState) :
    (deathStep s).current_path_point = s.current_path_point := by
  obtain ⟨e, h⟩ := deathStep_shape s; rw [h]

/-- The death branch leaves the attack clip's queue untouched. -/
theorem deathStep_attack_events (s : BotState) :
    (deathStep s).attack_animation.events = s.attack_animation.events := by
  obtain ⟨e, h⟩ := deathStep_shape s; rw [h]

/-- The death branch leaves the walk clip untouched. -/
theorem deathStep_walk_animation (s : BotState) :
    (deathStep s).walk_animation = s.walk_animation := by
  obtain ⟨e, h⟩ := deathStep_shape s; rw [h]

/-- The cadence step either keeps both path and cursor, or resets the cursor
to 0. -/
theorem pathRebuildTick_cursor_cases (s : BotState) (ctx : BotUpdateContext) :
    ((pathRebuildTick s ctx).path = s.path ∧
      (pathRebuildTick s ctx).current_path_point = s.current_path_point) ∨
    (pathRebuildTick s ctx).current_path_point = 0 := by
  obtain h | h | ⟨p, h⟩ := pathRebuildTick_shape s ctx
  · exact Or.inl ⟨by rw [h], by rw [h]⟩
  · exact Or.inr (by rw [h])
  · exact Or.inr (by rw [h])

/-- The cadence step leaves the target untouched. -/
theorem pathRebuildTick_target (s : BotState) (ctx : BotUpdateContext) :
    (pathRebuildTick s ctx).target = s.target := by
  obtain h | h | ⟨p, h⟩ := pathRebuildTick_shape s ctx <;> rw [h]

/-- The cadence step leaves the attack clip untouched. -/
theorem pathRebuildTick_attack_animation (s : BotState) (ctx : BotUpdateContext) :
    (pathRebuildTick s ctx).attack_animation = s.attack_animation := by
  obtain h | h | ⟨p, h⟩ := pathRebuildTick_shape s ctx <;> rw [h]

/-- The cadence step leaves the walk clip untouched. -/
theorem pathRebuildTick_walk_animation (s : BotState) (ctx : BotUpdateContext) :
    (pathRebuildTick s ctx).walk_animation = s.walk_animation := by
  obtain h | h | ⟨p, h⟩ := pathRebuildTick_shape s ctx <;> rw [h]

/-- The cooldown gate leaves the attack clip's queue untouched. -/
theorem attackGateStep_attack_events (s : BotState) (b : Bool) :
    (attackGateStep s b).attack_animation.events = s.attack_animation.events :=
  attackReenable_events b s.attack_timeout s.attack_animation

/-- The cooldown gate leaves the target untouched. -/
theorem attackGateStep_target (s : BotState) (b : Bool) :
    (attackGateStep s b).target = s.target := rfl

/-- The cooldown gate leaves the path untouched. -/
theorem attackGateStep_path (s : BotState) (b : Bool) :
    (attackGateStep s b).path = s.path := rfl

/-- The cooldown gate leaves the cursor untouched. -/
theorem attackGateStep_cursor (s : BotState) (b : Bool) :
    (attackGateStep s b).current_path_point = s.current_path_point := rfl

/-- The cooldown gate leaves the walk clip untouched. -/
theorem attackGateStep_walk_animation (s : BotState) (b : Bool) :
    (attackGateStep s b).walk_animation = s.walk_animation := rfl

/-- After one `Bot::update` tick the stored target is exactly the result of
the tick's initial `select_target` — no later step touches it. -/
theorem update_target_eq (s : BotState) (selfH : Nat) (ctx : BotUpdateContext)
    (ts : List TargetDescriptor) :
    (Bot.update s selfH ctx ts).target
      = Bot.select_target selfH ctx.body_position ctx.frustumContains
          ctx.castRay s.target ts := by
  unfold Bot.update
  dsimp only
  simp only [attackGateStep_target, applyUpperStep, pathRebuildTick_target,
    walkDrain_shape, attackDrain_shape, deathStep_target, damageDetect_target,
    waypointAdvance_target]

/-- After one `Bot::update` tick the attack clip's queue is empty when the
tick's target selection produced a target, and untouched otherwise. -/
theorem update_attack_events (s : BotState) (selfH : Nat)
    (ctx : BotUpdateContext) (ts : List TargetDescriptor) :
    (Bot.update s selfH ctx ts).attack_animation.events
      = if (Bot.select_target selfH ctx.body_position ctx.frustumContains
              ctx.castRay s.target ts).isSome = true
        then [] else s.attack_animation.events := by
  unfold Bot.update
  dsimp only
  simp only [attackGateStep_attack_events, applyUpperStep,
    pathRebuildTick_attack_animation, walkDrain_shape, attackDrain_shape,
    deathStep_attack_events, deathStep_target, damageDetect_attack_animation,
    damageDetect_target, waypointAdvance_attack_animation,
    waypointAdvance_target]

/-- After one `Bot::update` tick the walk clip's queue is empty when the
locomotion machine reported walking, and untouched otherwise. -/
theorem update_walk_events (s : BotState) (selfH : Nat)
    (ctx : BotUpdateContext) (ts : List TargetDescriptor) :
    (Bot.update s selfH ctx ts).walk_animation.events
      = if ctx.is_walking = true then [] else s.walk_animation.events := by
  unfold Bot.update
  dsimp only
  simp only [attackGateStep_walk_animation, applyUpperStep,
    pathRebuildTick_walk_animation, walkDrain_shape, attackDrain_shape,
    deathStep_walk_animation, damageDetect_walk_animation,
    waypointAdvance_walk_animation]

/-- Counterexample to C7 as stated: with no target (and the locomotion
machine not walking), `Bot::update` leaves a pending attack-clip signal in
the queue — the per-clip queues are not drained unconditionally. -/
theorem update_queue_not_drained_counterexample :
    (Bot.update
        { baseBot with attack_animation := { baseAnim with events := [2] } }
        0 baseCtx []).attack_animation.events = [2] ∧
      ([2] : List Nat) ≠ [] := by
  constructor
  · rw [update_attack_events]
    rfl
  · decide

/-- C7 (amended): in one `Bot::update` tick the attack clip's queue is fully
drained exactly when the bot ends the tick holding a target (the guard
`if let Some(target)`), and the walk clip's queue exactly when the
locomotion machine reports walking; a queue whose guard is false is carried
over untouched. -/
theorem update_signal_queue_drain (s : BotState) (selfH : Nat)
    (ctx : BotUpdateContext) (ts : List TargetDescriptor) :
    ((Bot.update s selfH ctx ts).target.isSome = true →
        (Bot.update s selfH ctx ts).attack_animation.events = []) ∧
    ((Bot.update s selfH ctx ts).target = none →
        (Bot.update s selfH ctx ts).attack_animation.events
          = s.attack_animation.events) ∧
    (ctx.is_walking = true →
        (Bot.update s selfH ctx ts).walk_animation.events = []) ∧
    (ctx.is_walking = false →
        (Bot.update s selfH ctx ts).walk_animation.events
          = s.walk_animation.events) := by
  refine ⟨fun h => ?_, fun h => ?_, fun h => ?_, fun h => ?_⟩
  · rw [update_target_eq] at h
    rw [update_attack_events, if_pos h]
  · rw [update_target_eq] at h
    rw [update_attack_events, if_neg (by rw [h]; decide)]
  · rw [update_walk_events, if_pos h]
  · rw [update_walk_events, if_neg (by rw [h]; decide)]

/-- Witness for C7 (amended) at a concrete input: a held target empties the
pending attack signal, and with the machine not walking a pending walk
signal is carried over. -/
theorem update_signal_queue_drain_witness :
    (Bot.update
        { baseBot with
          target := some { position := ⟨0, 0, 0⟩, handle := 7 },
          attack_animation := { baseAnim with events := [2] },
          walk_animation := { baseAnim with events := [3] } }
        0 baseCtx []).attack_animation.events = [] ∧
    (Bot.update
        { baseBot with
          target := some { position := ⟨0, 0, 0⟩, handle := 7 },
          attack_animation := { baseAnim with events := [2] },
          walk_animation := { baseAnim with events := [3] } }
        0 baseCtx []).walk_animation.events = [3] :=
  ⟨(update_signal_queue_drain _ 0 baseCtx []).1 (by rw [update_target_eq]; rfl),
   (update_signal_queue_drain _ 0 baseCtx []).2.2.2 rfl⟩

/-- Any list is empty or has positive length (index 0 is always a valid
cursor for a nonempty path). -/
theorem list_nil_or_pos (l : List Vec3) : l = [] ∨ 0 < l.length := by
  cases l
  · exact Or.inl rfl
  · exact Or.inr (Nat.succ_pos _)

/-- C4 (amended): across one `Bot::update` tick, validity of the waypoint
cursor is preserved (`current_path_point` indexes `path` or `path` is
empty), the cursor grows by at most one, any decrease is a reset to 0 by a
path rebuild, and an increment happens only when the cursor waypoint exists,
lies within 0.75 units, and is not the final waypoint. -/
theorem update_waypoint_cursor (s : BotState) (selfH : Nat)
    (ctx : BotUpdateContext) (ts : List TargetDescriptor) :
    ((s.path = [] ∨ s.current_path_point < s.path.length) →
      ((Bot.update s selfH ctx ts).path = [] ∨
        (Bot.update s selfH ctx ts).current_path_point
          < (Bot.update s selfH ctx ts).path.length)) ∧
    (Bot.update s selfH ctx ts).current_path_point ≤ s.current_path_point + 1 ∧
    ((Bot.update s selfH ctx ts).current_path_point < s.current_path_point →
      (Bot.update s selfH ctx ts).current_path_point = 0) ∧
    ((Bot.update s selfH ctx ts).current_path_point = s.current_path_point + 1 →
      ∃ pp, s.path[s.current_path_point]? = some pp ∧
        Vec3.sqrDistance pp ctx.body_position ≤ 9 / 16 ∧
        s.current_path_point < s.path.length - 1) := by
  unfold Bot.update
  dsimp only
  simp only [attackGateStep_cursor, attackGateStep_path, applyUpperStep]
  set T := Bot.select_target selfH ctx.body_position ctx.frustumContains
    ctx.castRay s.target ts with hT
  set W := waypointAdvance { s with target := T } ctx.body_position with hW
  set Z := walkDrain (attackDrain (deathStep (damageDetect W))) ctx.is_walking
    with hZ
  have hZpath : Z.path = W.path := by
    rw [hZ]
    simp only [walkDrain_shape, attackDrain_shape, deathStep_path,
      damageDetect_path]
  have hZcur : Z.current_path_point = W.current_path_point := by
    rw [hZ]
    simp only [walkDrain_shape, attackDrain_shape, deathStep_cursor,
      damageDetect_cursor]
  have hWpath : W.path = s.path := by
    rw [hW]
    simp only [waypointAdvance_path]
  have hWcases := waypointAdvance_cursor_cases { s with target := T }
    ctx.body_position
  rw [← hW] at hWcases
  dsimp only at hWcases
  rcases pathRebuildTick_cursor_cases Z ctx with ⟨hqp, hqc⟩ | hqc
  · rw [hqp, hqc, hZpath, hZcur, hWpath]
    rcases hWcases with hc | ⟨hc, hlen, pp, hpp, hd, hfin⟩
    · rw [hc]
      exact ⟨fun h => h, by omega, fun h => absurd h (by omega),
        fun h => absurd h (by omega)⟩
    · rw [hc]
      exact ⟨fun _ => Or.inr hlen, by omega, fun h => absurd h (by omega),
        fun _ => ⟨pp, hpp, hd, hfin⟩⟩
  · rw [hqc]
    exact ⟨fun _ => list_nil_or_pos _, by omega, fun _ => rfl,
      fun h => absurd h (by omega)⟩

/-- Counterexample to C4 as stated: a path rebuild inside `Bot::update`
resets the cursor from 1 back to 0 — the cursor is not monotone across
ticks. -/
theorem update_cursor_decrease_counterexample :
    ({ baseBot with
        target := some { position := ⟨5, 0, 5⟩, handle := 7 },
        path := [⟨0, 0, 0⟩, ⟨10, 0, 10⟩],
        current_path_point := 1,
        last_path_rebuild_time := -10 } : BotState).current_path_point = 1 ∧
    (Bot.update
        { baseBot with
          target := some { position := ⟨5, 0, 5⟩, handle := 7 },
          path := [⟨0, 0, 0⟩, ⟨10, 0, 10⟩],
          current_path_point := 1,
          last_path_rebuild_time := -10 }
        0 { baseCtx with navmesh := some successNavmesh }
        []).current_path_point = 0 := by
  constructor
  · rfl
  · norm_num [Bot.update, Bot.select_target, stickyCandidate, targetLoop,
      beatsClosest, hitLoopOccluded, inCloseCombat, waypointAdvance,
      damageDetect, deathStep, attackDrain, walkDrain, pathRebuildTick,
      Bot.rebuild_path, applyUpperStep, attackGateStep, attackReenable,
      armAttackTimeout, AnimState.rewind, Vec3.sqrDistance, baseBot, baseCtx,
      baseAnim, successNavmesh]

/-- Witness for C4 (amended) at concrete inputs: the validity invariant is
carried through a tick from an empty path; a decrease (forced by a rebuild)
ends at 0; an increment certifies the advance conditions. -/
theorem update_waypoint_cursor_witness :
    ((Bot.update baseBot 0 baseCtx []).path = [] ∨
      (Bot.update baseBot 0 baseCtx []).current_path_point
        < (Bot.update baseBot 0 baseCtx []).path.length) ∧
    (Bot.update
        { baseBot with
          target := some { position := ⟨5, 0, 5⟩, handle := 7 },
          path := [⟨0, 0, 0⟩, ⟨10, 0, 10⟩],
          current_path_point := 1,
          last_path_rebuild_time := -10 }
        0 { baseCtx with navmesh := some successNavmesh }
        []).current_path_point = 0 ∧
    (∃ pp, ([⟨0, 0, 0⟩, ⟨5, 5, 5⟩] : List Vec3)[0]? = some pp ∧
      Vec3.sqrDistance pp baseCtx.body_position ≤ 9 / 16 ∧
      0 < ([⟨0, 0, 0⟩, ⟨5, 5, 5⟩] : List Vec3).length - 1) :=
  ⟨(update_waypoint_cursor baseBot 0 baseCtx []).1 (Or.inl rfl),
   (update_waypoint_cursor _ 0 _ []).2.2.1
    (by norm_num [Bot.update, Bot.select_target, stickyCandidate, targetLoop,
      beatsClosest, hitLoopOccluded, inCloseCombat, waypointAdvance,
      damageDetect, deathStep, attackDrain, walkDrain, pathRebuildTick,
      Bot.rebuild_path, applyUpperStep, attackGateStep, attackReenable,
      armAttackTimeout, AnimState.rewind, Vec3.sqrDistance, baseBot, baseCtx,
      baseAnim, successNavmesh]),
   (update_waypoint_cursor
      { baseBot with path := [⟨0, 0, 0⟩, ⟨5, 5, 5⟩] } 0 baseCtx []).2.2.2
    (by norm_num [Bot.update, Bot.select_target, stickyCandidate, targetLoop,
      beatsClosest, hitLoopOccluded, inCloseCombat, waypointAdvance,
      damageDetect, deathStep, attackDrain, walkDrain, pathRebuildTick,
      Bot.rebuild_path, applyUpperStep, attackGateStep, attackReenable,
      armAttackTimeout, AnimState.rewind, Vec3.sqrDistance, baseBot, baseCtx,
      baseAnim])⟩

/-- Accumulator invariant of the `target_loop` scan with a best-so-far at
distance `c`: the scan either ends on a qualifying candidate strictly closer
than `c` that is minimal among qualifying candidates closer than `c`, or
keeps the accumulated target because no qualifying candidate beats `c`. -/
theorem targetLoop_some_acc (selfHandle : Nat) (position : Vec3)
    (fc : Vec3 → Bool) (cr : Vec3 → List Hit) (l : List TargetDescriptor)
    (t0 : Target) (c : ℚ) :
    (∃ d ∈ l, qualifies selfHandle fc cr d ∧
        position.sqrDistance d.position < c ∧
        targetLoop selfHandle position fc cr l (some t0) (some c)
          = some { position := d.position, handle := d.handle } ∧
        ∀ e ∈ l, qualifies selfHandle fc cr e →
          position.sqrDistance e.position < c →
          position.sqrDistance d.position ≤ position.sqrDistance e.position) ∨
    (targetLoop selfHandle position fc cr l (some t0) (some c) = some t0 ∧
      ∀ e ∈ l, qualifies selfHandle fc cr e →
        c ≤ position.sqrDistance e.position) := by
  induction l generalizing t0 c with
  | nil => exact Or.inr ⟨rfl, by simp⟩
  | cons a rest ih =>
      by_cases h1 : a.handle ≠ selfHandle ∧ fc a.position = true
      · by_cases h2 : hitLoopOccluded (cr a.position) = true
        · -- occluded: skipped, not qualifying
          have hna : ¬ qualifies selfHandle fc cr a := by
            rintro ⟨-, -, hocc⟩
            rw [hocc] at h2
            cases h2
          have hstep : targetLoop selfHandle position fc cr (a :: rest)
              (some t0) (some c)
              = targetLoop selfHandle position fc cr rest (some t0) (some c) := by
            simp only [targetLoop]
            rw [if_pos h1, if_pos h2]
          rcases ih t0 c with ⟨d, hd, hQ, hlt, heq, hmin⟩ | ⟨heq, hmin⟩
          · refine Or.inl ⟨d, List.mem_cons_of_mem a hd, hQ, hlt,
              hstep.trans heq, ?_⟩
            intro e he hQe hlte
            rcases List.mem_cons.mp he with rfl | he2
            · exact absurd hQe hna
            · exact hmin e he2 hQe hlte
          · refine Or.inr ⟨hstep.trans heq, ?_⟩
            intro e he hQe
            rcases List.mem_cons.mp he with rfl | he2
            · exact absurd hQe hna
            · exact hmin e he2 hQe
        · -- unoccluded candidate, qualifying
          have h2f : hitLoopOccluded (cr a.position) = false := by
            revert h2
            cases hitLoopOccluded (cr a.position) <;> simp
          have hQa : qualifies selfHandle fc cr a := ⟨h1.1, h1.2, h2f⟩
          by_cases h3 : position.sqrDistance a.position < c
          · have hstep : targetLoop selfHandle position fc cr (a :: rest)
                (some t0) (some c)
                = targetLoop selfHandle position fc cr rest
                    (some { position := a.position, handle := a.handle })
                    (some (position.sqrDistance a.position)) := by
              simp only [targetLoop]
              rw [if_pos h1, if_neg h2]
              rw [if_pos (show beatsClosest (position.sqrDistance a.position)
                  (some c) = true from decide_eq_true h3)]
            rcases ih { position := a.position, handle := a.handle }
                (position.sqrDistance a.position) with
              ⟨d, hd, hQd, hdlt, heq, hmin⟩ | ⟨heq, hmin⟩
            · refine Or.inl ⟨d, List.mem_cons_of_mem a hd, hQd,
                lt_trans hdlt h3, hstep.trans heq, ?_⟩
              intro e he hQe hlte
              rcases List.mem_cons.mp he with rfl | he2
              · exact le_of_lt hdlt
              · rcases lt_or_le (position.sqrDistance e.position)
                    (position.sqrDistance a.position) with he3 | he3
                · exact hmin e he2 hQe he3
                · exact le_trans (le_of_lt hdlt) he3
            · refine Or.inl ⟨a, List.mem_cons_self a rest, hQa, h3,
                hstep.trans heq, ?_⟩
              intro e he hQe _
              rcases List.mem_cons.mp he with rfl | he2
              · exact le_refl _
              · exact hmin e he2 hQe
          · have hstep : targetLoop selfHandle position fc cr (a :: rest)
                (some t0) (some c)
                = targetLoop selfHandle position fc cr rest (some t0) (some c) := by
              simp only [targetLoop]
              rw [if_pos h1, if_neg h2]
              rw [if_neg (show ¬ beatsClosest (position.sqrDistance a.position)
                  (some c) = true from by
                simp only [beatsClosest, decide_eq_true_eq]
                exact h3)]
            rcases ih t0 c with ⟨d, hd, hQd, hdlt, heq, hmin⟩ | ⟨heq, hmin⟩
            · refine Or.inl ⟨d, List.mem_cons_of_mem a hd, hQd, hdlt,
                hstep.trans heq, ?_⟩
              intro e he hQe hlte
              rcases List.mem_cons.mp he with rfl | he2
              · exact absurd hlte h3
              · exact hmin e he2 hQe hlte
            · refine Or.inr ⟨hstep.trans heq, ?_⟩
              intro e he hQe
              rcases List.mem_cons.mp he with rfl | he2
              · exact le_of_not_lt h3
              · exact hmin e he2 hQe
      · -- self or out of frustum: skipped, not qualifying
        have hna : ¬ qualifies selfHandle fc cr a := fun hq => h1 ⟨hq.1, hq.2.1⟩
        have hstep : targetLoop selfHandle position fc cr (a :: rest)
            (some t0) (some c)
            = targetLoop selfHandle position fc cr rest (some t0) (some c) := by
          simp only [targetLoop]
          rw [if_neg h1]
        rcases ih t0 c with ⟨d, hd, hQ, hlt, heq, hmin⟩ | ⟨heq, hmin⟩
        · refine Or.inl ⟨d, List.mem_cons_of_mem a hd, hQ, hlt,
            hstep.trans heq, ?_⟩
          intro e he hQe hlte
          rcases List.mem_cons.mp he with rfl | he2
          · exact absurd hQe hna
          · exact hmin e he2 hQe hlte
        · refine Or.inr ⟨hstep.trans heq, ?_⟩
          intro e he hQe
          rcases List.mem_cons.mp he with rfl | he2
          · exact absurd hQe hna
          · exact hmin e he2 hQe

/-- The `target_loop` scan started on the `f32::MAX` sentinel: it either
ends on a qualifying candidate of minimal squared distance, or leaves the
accumulated target untouched because no candidate qualifies. -/
theorem targetLoop_none_acc (selfHandle : Nat) (position : Vec3)
    (fc : Vec3 → Bool) (cr : Vec3 → List Hit) (l : List TargetDescriptor)
    (tgt : Option Target) :
    (∃ d ∈ l, qualifies selfHandle fc cr d ∧
        targetLoop selfHandle position fc cr l tgt none
          = some { position := d.position, handle := d.handle } ∧
        ∀ e ∈ l, qualifies selfHandle fc cr e →
          position.sqrDistance d.position ≤ position.sqrDistance e.position) ∨
    (targetLoop selfHandle position fc cr l tgt none = tgt ∧
      ∀ e ∈ l, ¬ qualifies selfHandle fc cr e) := by
  induction l generalizing tgt with
  | nil => exact Or.inr ⟨rfl, by simp⟩
  | cons a rest ih =>
      by_cases h1 : a.handle ≠ selfHandle ∧ fc a.position = true
      · by_cases h2 : hitLoopOccluded (cr a.position) = true
        · have hna : ¬ qualifies selfHandle fc cr a := by
            rintro ⟨-, -, hocc⟩
            rw [hocc] at h2
            cases h2
          have hstep : targetLoop selfHandle position fc cr (a :: rest) tgt none
              = targetLoop selfHandle position fc cr rest tgt none := by
            simp only [targetLoop]
            rw [if_pos h1, if_pos h2]
          rcases ih tgt with ⟨d, hd, hQ, heq, hmin⟩ | ⟨heq, hall⟩
          · refine Or.inl ⟨d, List.mem_cons_of_mem a hd, hQ,
              hstep.trans heq, ?_⟩
            intro e he hQe
            rcases List.mem_cons.mp he with rfl | he2
            · exact absurd hQe hna
            · exact hmin e he2 hQe
          · refine Or.inr ⟨hstep.trans heq, ?_⟩
            intro e he
            rcases List.mem_cons.mp he with rfl | he2
            · exact hna
            · exact hall e he2
        · have h2f : hitLoopOccluded (cr a.position) = false := by
            revert h2
            cases hitLoopOccluded (cr a.position) <;> simp
          have hQa : qualifies selfHandle fc cr a := ⟨h1.1, h1.2, h2f⟩
          have hstep : targetLoop selfHandle position fc cr (a :: rest) tgt none
              = targetLoop selfHandle position fc cr rest
                  (some { position := a.position, handle := a.handle })
                  (some (position.sqrDistance a.position)) := by
            simp only [targetLoop]
            rw [if_pos h1, if_neg h2]
            rw [if_pos (show beatsClosest (position.sqrDistance a.position)
                none = true from rfl)]
          rcases targetLoop_some_acc selfHandle position fc cr rest
              { position := a.position, handle := a.handle }
              (position.sqrDistance a.position) with
            ⟨d, hd, hQd, hdlt, heq, hmin⟩ | ⟨heq, hmin⟩
          · refine Or.inl ⟨d, List.mem_cons_of_mem a hd, hQd,
              hstep.trans heq, ?_⟩
            intro e he hQe
            rcases List.mem_cons.mp he with rfl | he2
            · exact le_of_lt hdlt
            · rcases lt_or_le (position.sqrDistance e.position)
                  (position.sqrDistance a.position) with he3 | he3
              · exact hmin e he2 hQe he3
              · exact le_trans (le_of_lt hdlt) he3
          · refine Or.inl ⟨a, List.mem_cons_self a rest, hQa,
              hstep.trans heq, ?_⟩
            intro e he hQe
            rcases List.mem_cons.mp he with rfl | he2
            · exact le_refl _
            · exact hmin e he2 hQe
      · have hna : ¬ qualifies selfHandle fc cr a := fun hq => h1 ⟨hq.1, hq.2.1⟩
        have hstep : targetLoop selfHandle position fc cr (a :: rest) tgt none
            = targetLoop selfHandle position fc cr rest tgt none := by
          simp only [targetLoop]
          rw [if_neg h1]
        rcases ih tgt with ⟨d, hd, hQ, heq, hmin⟩ | ⟨heq, hall⟩
        · refine Or.inl ⟨d, List.mem_cons_of_mem a hd, hQ,
            hstep.trans heq, ?_⟩
          intro e he hQe
          rcases List.mem_cons.mp he with rfl | he2
          · exact absurd hQe hna
          · exact hmin e he2 hQe
        · refine Or.inr ⟨hstep.trans heq, ?_⟩
          intro e he
          rcases List.mem_cons.mp he with rfl | he2
          · exact hna
          · exact hall e he2

/-- Counterexample to C2 as stated: when the sticky check does not apply
(the held target's candidate has health 0) and no candidate qualifies (all
outside the frustum), `Bot::select_target` does not set the target to `None`
— the stale target survives, because the function never clears the field. -/
theorem select_target_stale_counterexample :
    Bot.select_target 0 ⟨0, 0, 0⟩ (fun _ => false) (fun _ => [])
        (some { position := ⟨1, 1, 1⟩, handle := 5 })
        [{ handle := 5, position := ⟨1, 1, 1⟩, health := 0 }]
      = some { position := ⟨1, 1, 1⟩, handle := 5 } ∧
    Bot.select_target 0 ⟨0, 0, 0⟩ (fun _ => false) (fun _ => [])
        (some { position := ⟨1, 1, 1⟩, handle := 5 })
        [{ handle := 5, position := ⟨1, 1, 1⟩, health := 0 }]
      ≠ none := by
  constructor
  · rfl
  · decide

/-- C2 (amended): when the sticky check does not apply, `Bot::select_target`
ends with the nearest (minimal squared distance) candidate among those that
are not the bot itself, inside the stored frustum, and not occluded by a
triangle-mesh collider on the ray from candidate to bot; a candidate outside
the frustum is never selected; and when no candidate qualifies the target is
left unchanged (the previous, possibly stale, target survives — it is not
set to `None`). -/
theorem select_target_new_selection (selfHandle : Nat) (position : Vec3)
    (fc : Vec3 → Bool) (cr : Vec3 → List Hit) (target : Option Target)
    (targets : List TargetDescriptor)
    (hsticky : ∀ t, target = some t →
      stickyCandidate selfHandle t targets = none) :
    ((∃ d ∈ targets, qualifies selfHandle fc cr d) →
      ∃ d ∈ targets, qualifies selfHandle fc cr d ∧
        Bot.select_target selfHandle position fc cr target targets
          = some { position := d.position, handle := d.handle } ∧
        ∀ e ∈ targets, qualifies selfHandle fc cr e →
          position.sqrDistance d.position ≤ position.sqrDistance e.position) ∧
    ((∀ d ∈ targets, ¬ qualifies selfHandle fc cr d) →
      Bot.select_target selfHandle position fc cr target targets = target) := by
  have hsel : Bot.select_target selfHandle position fc cr target targets
      = targetLoop selfHandle position fc cr targets target none := by
    cases ht : target with
    | none => rfl
    | some t => simp [Bot.select_target, hsticky t ht]
  rcases targetLoop_none_acc selfHandle position fc cr targets target with
    ⟨d, hd, hQ, heq, hmin⟩ | ⟨heq, hall⟩
  · refine ⟨fun _ => ⟨d, hd, hQ, hsel.trans heq, hmin⟩, fun hnone => ?_⟩
    exact absurd hQ (hnone d hd)
  · refine ⟨fun hex => ?_, fun _ => hsel.trans heq⟩
    obtain ⟨d, hd, hQ⟩ := hex
    exact absurd hQ (hall d hd)

/-- Witness for C2 (amended) at a concrete input: no held target, two
in-frustum unoccluded candidates at distances 1 and 4 — the selection lands
on a qualifying candidate of minimal squared distance. -/
theorem select_target_new_selection_witness :
    ∃ d ∈ [({ handle := 1, position := ⟨1, 0, 0⟩, health := 5 } : TargetDescriptor),
           { handle := 2, position := ⟨2, 0, 0⟩, health := 5 }],
      qualifies 0 (fun _ => true) (fun _ => []) d ∧
      Bot.select_target 0 ⟨0, 0, 0⟩ (fun _ => true) (fun _ => []) none
          [{ handle := 1, position := ⟨1, 0, 0⟩, health := 5 },
           { handle := 2, position := ⟨2, 0, 0⟩, health := 5 }]
        = some { position := d.position, handle := d.handle } ∧
      ∀ e ∈ [({ handle := 1, position := ⟨1, 0, 0⟩, health := 5 } : TargetDescriptor),
             { handle := 2, position := ⟨2, 0, 0⟩, health := 5 }],
        qualifies 0 (fun _ => true) (fun _ => []) e →
          Vec3.sqrDistance ⟨0, 0, 0⟩ d.position
            ≤ Vec3.sqrDistance ⟨0, 0, 0⟩ e.position :=
  (select_target_new_selection 0 ⟨0, 0, 0⟩ (fun _ => true) (fun _ => []) none
      [{ handle := 1, position := ⟨1, 0, 0⟩, health := 5 },
       { handle := 2, position := ⟨2, 0, 0⟩, health := 5 }]
      (fun t ht => nomatch ht)).1 (by decide)

end StationIapetus
